import Mathlib

/-!
Shallow embedding of the `go-kata` repository, covering:

* the sharded concurrent map (`NewShardedMap`, `getShardIndex`, `Get`,
  `Set`, `Delete`, `Keys`) from `02-concurrent-map-with-sharded-locks`;
* the graceful-shutdown server (`Server.Start`, `Server.Stop`,
  `workerPool`, `cacheWarmer`, `dbConnection`) from
  `03-graceful-shutdown-server`.

Machine integers are modelled as `Nat` with explicit reduction modulo
`2 ^ 64` where Go's `uint64` arithmetic overflows.  Concurrency is
modelled by making every `select` statement explicit: a branch may be
taken only when the corresponding channel/context operation is ready,
and the scheduler's choice among ready branches is an explicit argument.
External I/O outcomes (the result of the underlying connection attempt,
of `net.Conn.Close`, of `http.Server.Shutdown`, and whether a bounded
wait finishes before its deadline) are environment parameters, mirroring
exactly the error checks the Go code performs on them.
-/

namespace GoKata

/-! ### Sharded map (`shardedmap.go`) -/

/-- `2 ^ 64`, the modulus of Go's `uint64` arithmetic. -/
def uint64Mod : Nat := 2 ^ 64

/-- FNV-1a 64-bit hash of a byte sequence, as in `fnv64aHash`:
starting from the offset basis, each byte is XORed in and the result is
multiplied by the FNV prime in `uint64` arithmetic. -/
def fnv64aHash (data : List Nat) : Nat :=
  data.foldl (fun hash b => (Nat.xor hash (b % 256)) * 1099511628211 % uint64Mod)
    14695981039346656037

/-- The xxhash/murmur-style 64-bit finalizer used by `getShardIndex` for
integer keys: three xorshift-by-33 steps interleaved with two `uint64`
multiplications. -/
def mix64 (x : Nat) : Nat :=
  let h := x % uint64Mod
  let h := Nat.xor h (h >>> 33)
  let h := h * 0xff51afd7ed558ccd % uint64Mod
  let h := Nat.xor h (h >>> 33)
  let h := h * 0xc4ceb9fe1a85ec53 % uint64Mod
  Nat.xor h (h >>> 33)

/-- A key of the Go map, tagged the way `getShardIndex`'s type switch
distinguishes keys: a string (hashed over its bytes), an integer type
(`int`, `int64`, `uint64`, `uint32`, `int32`, all converted to `uint64`
and mixed), or any other comparable type (hashed over its memory
representation bytes). -/
inductive GoKey where
  | str (bytes : List Nat)
  | intKey (v : Int)
  | memBytes (bytes : List Nat)
  deriving DecidableEq, Repr

/-- The hash `getShardIndex` computes before reducing modulo the shard
count.  Integer keys go through the `uint64(k)` conversion (two's
complement, i.e. reduction modulo `2 ^ 64`) followed by `mix64`; string
and fallback keys go through `fnv64aHash`. -/
def goKeyHash : GoKey → Nat
  | .str bs => fnv64aHash bs
  | .intKey v => mix64 (v % (uint64Mod : Int)).toNat
  | .memBytes bs => fnv64aHash bs

/-- The sharded map: a list of association-list shards plus the stored
shard count (`shardCount uint64` in the source). -/
structure ShardedMap (V : Type) where
  shards : List (List (GoKey × V))
  shardCount : Nat
  deriving Repr

/-- `NewShardedMap`: clamps a `shardCount` argument below 1 up to 1, then
allocates that many empty shards. -/
def NewShardedMap (V : Type) (shardCount : Int) : ShardedMap V :=
  let n : Nat := if shardCount < 1 then 1 else shardCount.toNat
  { shards := List.replicate n [], shardCount := n }

/-- `getShardIndex`: hash of the key reduced modulo the shard count. -/
def ShardedMap.getShardIndex {V : Type} (sm : ShardedMap V) (key : GoKey) : Nat :=
  goKeyHash key % sm.shardCount

/-- Association-list lookup, modelling `sm.shards[shardIndex][key]`. -/
def assocLookup {V : Type} : List (GoKey × V) → GoKey → Option V
  | [], _ => none
  | (k, v) :: rest, key => if k = key then some v else assocLookup rest key

/-- Association-list update, modelling `sm.shards[shardIndex][key] = value`. -/
def assocSet {V : Type} (l : List (GoKey × V)) (key : GoKey) (value : V) :
    List (GoKey × V) :=
  match l with
  | [] => [(key, value)]
  | (k, v) :: rest => if k = key then (k, value) :: rest else (k, v) :: assocSet rest key value

/-- Association-list removal, modelling `delete(sm.shards[shardIndex], key)`. -/
def assocDelete {V : Type} (l : List (GoKey × V)) (key : GoKey) : List (GoKey × V) :=
  match l with
  | [] => []
  | (k, v) :: rest => if k = key then rest else (k, v) :: assocDelete rest key

/-- `Get`: computes the shard index, then looks the key up in that shard. -/
def ShardedMap.Get {V : Type} (sm : ShardedMap V) (key : GoKey) : Option V :=
  let shardIndex := sm.getShardIndex key
  assocLookup (sm.shards.getD shardIndex []) key

/-- `Set`: computes the shard index, then inserts/updates the key in that
shard. -/
def ShardedMap.Set {V : Type} (sm : ShardedMap V) (key : GoKey) (value : V) :
    ShardedMap V :=
  let shardIndex := sm.getShardIndex key
  { sm with shards := sm.shards.set shardIndex (assocSet (sm.shards.getD shardIndex []) key value) }

/-- `Delete`: computes the shard index, then removes the key from that
shard. -/
def ShardedMap.Delete {V : Type} (sm : ShardedMap V) (key : GoKey) : ShardedMap V :=
  let shardIndex := sm.getShardIndex key
  { sm with shards := sm.shards.set shardIndex (assocDelete (sm.shards.getD shardIndex []) key) }

/-- `Keys`: concatenates the keys of every shard, in shard order. -/
def ShardedMap.Keys {V : Type} (sm : ShardedMap V) : List GoKey :=
  (sm.shards.map (fun shard => shard.map Prod.fst)).flatten

/-! ### Graceful-shutdown server (`main.go` of `03-graceful-shutdown-server`)

Errors are an inductive mirroring the `fmt.Errorf` values the server
builds, with `%w` wrapping represented by constructor nesting. -/

/-- Error values produced by the server code.  Wrapping constructors
correspond to the `fmt.Errorf("...: %w", err)` sites of the source. -/
inductive Err where
  /-- `context.Canceled` / `context.DeadlineExceeded`, the value
  `ctx.Err()` returns once a context is done. -/
  | ctxDone
  /-- `"failed to connect to database: %w"` (the underlying dial error). -/
  | dbConnectFailed
  /-- `"failed to close database connection: %w"` (the underlying
  `net.Conn.Close` error). -/
  | connCloseFailed
  /-- `"HTTP server shutdown: %w"` from `Server.Stop` step 1. -/
  | httpShutdownWrap (e : Err)
  /-- `"worker pool stop timeout: %w"` from `workerPool.stop`. -/
  | poolStopTimeout (e : Err)
  /-- `"worker pool shutdown: %w"` from `Server.Stop` step 2. -/
  | workerPoolWrap (e : Err)
  /-- `"shutdown timeout exceeded"` from `Server.Stop` step 3. -/
  | shutdownTimeout
  /-- `"database close: %w"` from `Server.Stop` step 4. -/
  | dbCloseWrap (e : Err)
  /-- `"worker pool is shutting down"` from `workerPool.submit`. -/
  | poolShuttingDown
  /-- `"failed to connect to database: %w"` wrapping from `Server.Start`. -/
  | dbConnectWrap (e : Err)
  deriving DecidableEq, Repr

/-- The mocked `net.Conn` held by `dbConnection`: the only operation the
server performs on it is `Close`, whose result (`nil` or an error) is
recorded here as the external outcome. -/
structure netConn where
  closeFails : Bool
  deriving DecidableEq, Repr

/-- `dbConnection`: holds an optional connection (`conn net.Conn`, `nil`
when unopened or closed). -/
structure dbConnection where
  conn : Option netConn
  deriving DecidableEq, Repr

/-- `newDBConnection`: no connection yet. -/
def newDBConnection : dbConnection := { conn := none }

/-- `dbConnection.connect`: establishes the underlying connection and
stores it.  The source mocks this with `net.Pipe()` (which always
succeeds, i.e. `connectFails = false`); its own comment says a real
connection pool stands behind it in production, so the attempt's outcome
is an environment flag.  On failure the wrapped error is returned and no
connection is stored; on success the connection (with its future
`Close` outcome) is stored. -/
def dbConnection.connect (connectFails closeFails : Bool) (db : dbConnection) :
    dbConnection × Option Err :=
  if connectFails then (db, some Err.dbConnectFailed)
  else ({ conn := some { closeFails := closeFails } }, none)

/-- `dbConnection.close`: if a connection is held, close it; on a close
error, return the wrapped error immediately — the source returns before
the `db.conn = nil` assignment, so the connection stays held.  Only on a
successful close is `conn` cleared.  With no connection held it is a
no-op returning `nil`. -/
def dbConnection.close (db : dbConnection) : dbConnection × Option Err :=
  match db.conn with
  | none => (db, none)
  | some c =>
      if c.closeFails then (db, some Err.connCloseFailed)
      else ({ conn := none }, none)

/-- The `Server` fields `Stop` and `Start` read or write.  Pointer
fields that `Start` populates (`httpServer`, `workerPool`,
`cacheWarmer`) are modelled by presence flags (`false` = the `nil`
pointer `NewServer` leaves behind); calling a method through a `nil`
pointer whose body dereferences the receiver is a runtime fault. -/
structure Server where
  httpServerPresent : Bool
  workerPoolPresent : Bool
  cacheWarmerPresent : Bool
  dbConn : Option dbConnection
  rootCancelled : Bool
  shutdownOnceDone : Bool
  shutdownChClosed : Bool
  deriving DecidableEq, Repr

/-- `NewServer`: fresh state — root context not cancelled, shutdown
channel open, `sync.Once` unused, every component pointer `nil`. -/
def NewServer : Server :=
  { httpServerPresent := false, workerPoolPresent := false, cacheWarmerPresent := false,
    dbConn := none, rootCancelled := false, shutdownOnceDone := false,
    shutdownChClosed := false }

/-- External outcomes `Server.Start` checks: whether the database
connection attempt fails, and (recorded for later) whether the
established connection's `Close` will fail. -/
structure StartEnv where
  connectFails : Bool
  connCloseFails : Bool
  deriving DecidableEq, Repr

/-- `Server.Start`: allocates a `dbConnection` and connects (returning
the wrapped error on failure, with nothing else started); then starts
the cache warmer, the worker pool and the HTTP server and returns `nil`.
The source has no started-already check — a second call simply runs the
same sequence again. -/
def Server.Start (env : StartEnv) (s : Server) : Server × Option Err :=
  let s1 := { s with dbConn := some newDBConnection }
  match dbConnection.connect env.connectFails env.connCloseFails newDBConnection with
  | (_, some e) => (s1, some (Err.dbConnectWrap e))
  | (db, none) =>
      ({ s1 with dbConn := some db,
                 cacheWarmerPresent := true,
                 workerPoolPresent := true,
                 httpServerPresent := true }, none)

/-- The externally visible actions `Server.Stop`'s body performs, in
program order. -/
inductive StopEvent where
  /-- `s.rootCancel()` — cancel the root context. -/
  | cancelRoot
  /-- `s.httpServer.Shutdown(shutdownCtx)` — stop accepting requests. -/
  | httpShutdown
  /-- `s.workerPool.stop(shutdownCtx)` — drain the worker pool. -/
  | poolStop
  /-- the bounded wait on `s.wg` for remaining goroutines. -/
  | waitGoroutines
  /-- `s.dbConn.close()` — close the database connection. -/
  | dbClose
  /-- `close(s.shutdownCh)`. -/
  | closeShutdownCh
  deriving DecidableEq, Repr

/-- External outcomes `Server.Stop` checks: the result of
`httpServer.Shutdown`, whether the worker pool's `wg.Wait` finishes
before `shutdownCtx`'s deadline, and whether the server's `wg.Wait`
finishes before that deadline. -/
structure StopEnv where
  httpShutdownErr : Option Err
  poolWaitCompletes : Bool
  wgWaitCompletes : Bool
  deriving DecidableEq, Repr

/-- Result of running `Server.Stop` (or its body): either a runtime
fault (nil-pointer dereference) after the listed events, or normal
completion with the final state, the events performed, and the value of
the local `shutdownErr` variable that `Stop` returns. -/
inductive StopResult where
  | panicked (events : List StopEvent)
  | completed (s : Server) (events : List StopEvent) (err : Option Err)
  deriving DecidableEq, Repr

/-- The events of a `StopResult`. -/
def StopResult.events : StopResult → List StopEvent
  | .panicked evs => evs
  | .completed _ evs _ => evs

/-- The returned error of a `StopResult` (`none` for a fault). -/
def StopResult.err : StopResult → Option Err
  | .panicked _ => none
  | .completed _ _ e => e

/-- The body of `s.shutdownOnce.Do(func () {...})` in `Server.Stop`,
line by line: cancel the root context; call `httpServer.Shutdown`
(faulting if `httpServer` is `nil`), recording its error; call
`workerPool.stop` (faulting if `workerPool` is `nil`), recording a
timeout error if the pool's workers do not finish in time, but only when
no earlier error was recorded (first error wins); wait for the remaining
goroutines, recording `shutdown timeout exceeded` if the deadline
elapses first and no earlier error was recorded; close the database
connection (faulting if `dbConn` is `nil`), recording its error if no
earlier one; finally close `shutdownCh`.  Every step runs regardless of
earlier errors. -/
def Server.stopOnceBody (env : StopEnv) (s : Server) : StopResult :=
  let s1 := { s with rootCancelled := true }
  if s1.httpServerPresent = false then .panicked [.cancelRoot]
  else
    let err1 : Option Err := env.httpShutdownErr.map Err.httpShutdownWrap
    if s1.workerPoolPresent = false then .panicked [.cancelRoot, .httpShutdown]
    else
      let poolErr : Option Err :=
        if env.poolWaitCompletes then none
        else some (Err.workerPoolWrap (Err.poolStopTimeout Err.ctxDone))
      let err2 := err1 <|> poolErr
      let err3 := if env.wgWaitCompletes then err2 else err2 <|> some Err.shutdownTimeout
      match s1.dbConn with
      | none => .panicked [.cancelRoot, .httpShutdown, .poolStop, .waitGoroutines]
      | some db =>
          let closed := dbConnection.close db
          let err4 := err3 <|> closed.2.map Err.dbCloseWrap
          .completed { s1 with dbConn := some closed.1, shutdownChClosed := true }
            [.cancelRoot, .httpShutdown, .poolStop, .waitGoroutines, .dbClose,
              .closeShutdownCh]
            err4

/-- `Server.Stop`: `shutdownErr` is a fresh local variable of each call;
`shutdownOnce.Do` runs the body only on the first call, so a later call
performs nothing and returns that call's never-assigned local, i.e.
`nil`. -/
def Server.Stop (env : StopEnv) (s : Server) : StopResult :=
  if s.shutdownOnceDone then .completed s [] none
  else
    match Server.stopOnceBody env s with
    | .panicked evs => .panicked evs
    | .completed s2 evs e => .completed { s2 with shutdownOnceDone := true } evs e

/-! ### Worker pool

The pool's channels are modelled explicitly: `requestCh` is the buffered
channel's contents plus a closed flag, `stopCh` and the pool context are
flags.  Each `select` statement of the source becomes a readiness
predicate over its branches plus a step function applied to the branch
the scheduler picked (Go chooses uniformly among ready branches, so any
ready branch is a possible execution). -/

/-- The shared state of a `workerPool` as seen by `submit`, `worker` and
`start`: the buffered `requestCh` contents (items as numeric ids, `none`
standing for a `nil` request pointer is not needed — ids are opaque),
whether `requestCh` has been closed, whether the pool's context is
cancelled, whether `stopCh` has been closed, and the pool `size` (the
channel buffer is `size * 2`). -/
structure workerPool where
  requestCh : List Nat
  requestChClosed : Bool
  ctxCancelled : Bool
  stopChClosed : Bool
  size : Nat
  deriving DecidableEq, Repr

/-- `newWorkerPool`: empty open buffered channel of capacity `size * 2`,
open `stopCh`. -/
def newWorkerPool (size : Nat) : workerPool :=
  { requestCh := [], requestChClosed := false, ctxCancelled := false,
    stopChClosed := false, size := size }

/-- The buffer capacity `make(chan *request, size*2)` gives `requestCh`. -/
def workerPool.capacity (wp : workerPool) : Nat := wp.size * 2

/-- Cancellation of the context the pool was started with (the server's
root context). -/
def workerPool.cancelCtx (wp : workerPool) : workerPool :=
  { wp with ctxCancelled := true }

/-- What `workerPool.start` does when its `select` on
`ctx.Done()` / `stopCh` fires: `close(wp.requestCh)` — after which the
workers drain and `start` waits on `wp.wg`.  Only reachable once the
context is cancelled or `stopCh` closed. -/
def workerPool.startCloseRequestCh (wp : workerPool) : workerPool :=
  { wp with requestChClosed := true }

/-- The three branches of the `select` in `workerPool.submit`. -/
inductive SubmitBranch where
  | ctxDoneRecv
  | stopChRecv
  | requestChSend
  deriving DecidableEq, Repr

/-- Readiness of each `submit` branch: `<-ctx.Done()` once the context
is cancelled; `<-wp.stopCh` once `stopCh` is closed; the send
`wp.requestCh <- req` when the buffer has room — or when the channel is
closed, in which case committing the send is a runtime panic. -/
def workerPool.submitReady (wp : workerPool) : SubmitBranch → Bool
  | .ctxDoneRecv => wp.ctxCancelled
  | .stopChRecv => wp.stopChClosed
  | .requestChSend => wp.requestChClosed || decide (wp.requestCh.length < wp.capacity)

/-- Outcome of one `submit` call. -/
inductive SubmitOutcome where
  /-- the send committed: the item is in the queue, `submit` returns `nil`. -/
  | enqueued
  /-- `return ctx.Err()`. -/
  | ctxErr
  /-- `return fmt.Errorf("worker pool is shutting down")`. -/
  | poolUnavailable
  /-- send on a closed channel: runtime panic. -/
  | panicked
  deriving DecidableEq, Repr

/-- `workerPool.submit`, given the branch the scheduler committed:
defined (`some`) only on ready branches.  `<-ctx.Done()` returns the
context's error without enqueuing; `<-wp.stopCh` returns the
pool-unavailable error without enqueuing; the send appends the item to
the buffer and returns `nil` — unless `requestCh` is already closed, in
which case the send panics. -/
def workerPool.submit (wp : workerPool) (item : Nat) (b : SubmitBranch) :
    Option (workerPool × SubmitOutcome) :=
  if wp.submitReady b then
    match b with
    | .ctxDoneRecv => some (wp, .ctxErr)
    | .stopChRecv => some (wp, .poolUnavailable)
    | .requestChSend =>
        if wp.requestChClosed then some (wp, .panicked)
        else some ({ wp with requestCh := wp.requestCh ++ [item] }, .enqueued)
  else none

/-- The branches of the `select` in `workerPool.worker`'s loop, with the
receive from `requestCh` split by what it yields: an item, or
`ok = false` on a closed empty channel. -/
inductive WorkerBranch where
  | ctxDoneRecv
  | requestChRecvItem
  | requestChRecvClosed
  deriving DecidableEq, Repr

/-- Readiness of each `worker` branch: `<-ctx.Done()` once the context
is cancelled; the receive yields an item whenever the buffer is
non-empty (buffered items are still delivered after close); the receive
yields `ok = false` when the channel is closed and the buffer empty. -/
def workerPool.workerReady (wp : workerPool) : WorkerBranch → Bool
  | .ctxDoneRecv => wp.ctxCancelled
  | .requestChRecvItem => !wp.requestCh.isEmpty
  | .requestChRecvClosed => wp.requestCh.isEmpty && wp.requestChClosed

/-- Outcome of one iteration of a worker's loop. -/
inductive WorkerOutcome where
  /-- the worker `return`s (via `<-ctx.Done()` or `!ok`). -/
  | exited
  /-- the worker took `item` and calls `processRequest` on it. -/
  | processed (item : Nat)
  deriving DecidableEq, Repr

/-- One iteration of `workerPool.worker`, given the branch the scheduler
committed: defined (`some`) only on ready branches.  On `<-ctx.Done()`
the worker returns immediately — whatever is still in the queue; on a
closed empty channel it returns; otherwise it removes the head item and
processes it. -/
def workerPool.worker (wp : workerPool) (b : WorkerBranch) :
    Option (workerPool × WorkerOutcome) :=
  if wp.workerReady b then
    match b with
    | .ctxDoneRecv => some (wp, .exited)
    | .requestChRecvClosed => some (wp, .exited)
    | .requestChRecvItem =>
        match wp.requestCh with
        | [] => none
        | item :: rest => some ({ wp with requestCh := rest }, .processed item)
  else none

/-- `workerPool.stop`: closes `stopCh`, then waits for the workers with
the caller context's deadline; `nil` if they finish in time, the wrapped
timeout error otherwise (the workers are then abandoned, not killed). -/
def workerPool.stop (workersFinishInTime : Bool) (wp : workerPool) :
    workerPool × Option Err :=
  let wp1 := { wp with stopChClosed := true }
  if workersFinishInTime then (wp1, none)
  else (wp1, some (Err.poolStopTimeout Err.ctxDone))

/-- A `request` as `processRequest` inspects it: whether the
`http.ResponseWriter` and the `*http.Request` are non-`nil`.  (A `nil`
`*request` pointer itself is modelled by passing `none`.) -/
structure Request where
  hasWriter : Bool
  hasHTTPReq : Bool
  deriving DecidableEq, Repr

/-- What one `processRequest` call does with its request. -/
inductive ProcessOutcome where
  /-- `req == nil || req.r == nil`: skipped. -/
  | skippedNil
  /-- `req.w == nil`: simulated the work without writing a response. -/
  | workedNoResponse
  /-- the 100ms work timer won the `select`: wrote `200 OK`. -/
  | okResponse
  /-- `<-ctx.Done()` won the `select`: wrote `408 Request cancelled`
  and returned without completing the work. -/
  | cancelledResponse
  deriving DecidableEq, Repr

/-- `workerPool.processRequest`: skips `nil` requests; for a request
without a writer it simulates the work (racing the pool context) and
returns; otherwise it races the 100ms work timer against the pool's
context (`ctx` here is the context the worker was started with — the
server's root context, not a per-item deadline).  `cancelWinsRace` says
which `select` branch fires first: if the context is cancelled before
the work timer fires, the handler writes `408 Request cancelled` and
returns early; only otherwise does it write `200 OK`. -/
def workerPool.processRequest (cancelWinsRace : Bool) (req : Option Request) :
    ProcessOutcome :=
  match req with
  | none => .skippedNil
  | some r =>
      if r.hasHTTPReq = false then .skippedNil
      else if r.hasWriter = false then .workedNoResponse
      else if cancelWinsRace then .cancelledResponse
      else .okResponse

/-! ### Shared concrete states used by several claims -/

/-- A start environment where the database connect succeeds and the
connection's eventual close succeeds (the behaviour of the source's
`net.Pipe` mock). -/
def startEnvOK : StartEnv := { connectFails := false, connCloseFails := false }

/-- The server state after one successful `Start` on a fresh server. -/
def startedServer : Server := (Server.Start startEnvOK NewServer).1

/-- A stop environment where every step succeeds and every wait finishes
before the deadline. -/
def quietStopEnv : StopEnv :=
  { httpShutdownErr := none, poolWaitCompletes := true, wgWaitCompletes := true }

/-- A stop environment where the HTTP shutdown and the pool wait
succeed but the final wait for goroutines hits the shutdown deadline. -/
def timeoutStopEnv : StopEnv :=
  { httpShutdownErr := none, poolWaitCompletes := true, wgWaitCompletes := false }

/-! ### Claims -/

/-- Claim C10 (confirmed): for every `shardCount` argument, including
zero and negative values, `NewShardedMap` constructs a map with at least
one shard whose shard slice has exactly `shardCount` entries; the shard
index computed for any key (the index used by `Get`, `Set` and `Delete`)
is strictly less than the shard count, so the modulo is never taken by
zero and every shard access is in bounds; and `Set` and `Delete`
preserve the shard count and the shard-slice length, so this stays true
across operations. -/
theorem c10_shard_index_always_in_bounds (V : Type) (n : Int) (k : GoKey) (v : V) :
    1 ≤ (NewShardedMap V n).shardCount
    ∧ (NewShardedMap V n).shards.length = (NewShardedMap V n).shardCount
    ∧ (NewShardedMap V n).getShardIndex k < (NewShardedMap V n).shardCount
    ∧ ((NewShardedMap V n).Set k v).shardCount = (NewShardedMap V n).shardCount
    ∧ ((NewShardedMap V n).Set k v).shards.length = (NewShardedMap V n).shardCount
    ∧ ((NewShardedMap V n).Delete k).shardCount = (NewShardedMap V n).shardCount
    ∧ ((NewShardedMap V n).Delete k).shards.length = (NewShardedMap V n).shardCount := by
  have hpos : 1 ≤ (NewShardedMap V n).shardCount := by
    simp only [NewShardedMap]
    split <;> omega
  refine ⟨hpos, ?_, ?_, ?_, ?_, ?_, ?_⟩
  · simp [NewShardedMap]
  · exact Nat.mod_lt _ (by omega)
  · rfl
  · simp [ShardedMap.Set, NewShardedMap]
  · rfl
  · simp [ShardedMap.Delete, NewShardedMap]

/-- Witness for C10 at a concrete negative shard count and concrete
key/value. -/
theorem c10_witness :
    1 ≤ (NewShardedMap Nat (-5)).shardCount
    ∧ (NewShardedMap Nat (-5)).getShardIndex (GoKey.intKey 42)
        < (NewShardedMap Nat (-5)).shardCount :=
  ⟨(c10_shard_index_always_in_bounds Nat (-5) (GoKey.intKey 42) 0).1,
   (c10_shard_index_always_in_bounds Nat (-5) (GoKey.intKey 42) 0).2.2.1⟩

/-- Claim C5, counterexample: on a handle whose underlying close fails,
`close` returns the error but leaves the connection held — the handle
stays Open rather than transitioning to Closed, and a repeated `close`
is not a no-op success: it retries and returns the error again. -/
theorem c5_counterexample :
    (dbConnection.close { conn := some { closeFails := true } }).1.conn ≠ none
    ∧ (dbConnection.close { conn := some { closeFails := true } }).2
        = some Err.connCloseFailed
    ∧ (dbConnection.close
        (dbConnection.close { conn := some { closeFails := true } }).1).2 ≠ none := by
  decide

/-- Claim C5 as amended (proved): closing an Unopened or already-Closed
handle (no connection held) is a no-op success; when the underlying
close fails, `close` returns the error and the handle remains Open with
the same connection (a repeated `close` retries the underlying close
rather than being a no-op); only a successful underlying close
transitions the handle to Closed. -/
theorem c5_amended (db : dbConnection) :
    (db.conn = none → dbConnection.close db = (db, none))
    ∧ (∀ c, db.conn = some c → c.closeFails = true →
        dbConnection.close db = (db, some Err.connCloseFailed))
    ∧ (∀ c, db.conn = some c → c.closeFails = false →
        dbConnection.close db = ({ conn := none }, none)) := by
  refine ⟨?_, ?_, ?_⟩
  · intro h
    simp [dbConnection.close, h]
  · intro c hc hf
    simp [dbConnection.close, hc, hf]
  · intro c hc hf
    simp [dbConnection.close, hc, hf]

/-- Witness for C5's amended claim at concrete handles. -/
theorem c5_witness :
    dbConnection.close { conn := none } = ({ conn := none }, none)
    ∧ dbConnection.close { conn := some { closeFails := true } }
        = ({ conn := some { closeFails := true } }, some Err.connCloseFailed) :=
  ⟨(c5_amended { conn := none }).1 rfl,
   (c5_amended { conn := some { closeFails := true } }).2.1 { closeFails := true } rfl rfl⟩

/-- Claim C4, counterexample: a worker processing a full request when
the pool's cancellation signal fires before the work completes writes a
`408 Request cancelled` response and returns early — the item is not
processed to completion, and the cut-off comes from the pool's context,
not from any per-item deadline. -/
theorem c4_counterexample :
    workerPool.processRequest true (some { hasWriter := true, hasHTTPReq := true })
      = ProcessOutcome.cancelledResponse
    ∧ workerPool.processRequest true (some { hasWriter := true, hasHTTPReq := true })
      ≠ ProcessOutcome.okResponse := by
  decide

/-- Claim C4 as amended (proved): for a full request, `processRequest`
races the simulated work against the pool's own cancellation signal: if
cancellation fires before the work timer, the worker aborts the item
with a cancellation response; only when the work timer wins does the
item complete with `200 OK`.  There is no per-item deadline at all. -/
theorem c4_amended (cancelWinsRace : Bool) (r : Request)
    (h1 : r.hasWriter = true) (h2 : r.hasHTTPReq = true) :
    workerPool.processRequest cancelWinsRace (some r)
      = if cancelWinsRace then ProcessOutcome.cancelledResponse
        else ProcessOutcome.okResponse := by
  simp [workerPool.processRequest, h1, h2]

/-- Witness for C4's amended claim at a concrete request, both race
outcomes. -/
theorem c4_witness :
    workerPool.processRequest true (some { hasWriter := true, hasHTTPReq := true })
      = ProcessOutcome.cancelledResponse
    ∧ workerPool.processRequest false (some { hasWriter := true, hasHTTPReq := true })
      = ProcessOutcome.okResponse :=
  ⟨c4_amended true { hasWriter := true, hasHTTPReq := true } rfl rfl,
   c4_amended false { hasWriter := true, hasHTTPReq := true } rfl rfl⟩

/-- Claim C3 (code bug), evaluated at the failing input: an item is
submitted successfully into a fresh pool (before any drain), then the
pool's context is cancelled; in the resulting state the worker's
`<-ctx.Done()` branch is ready, and taking it makes the worker exit
while the item is still pending in the queue — the queue is not drained
and the item is never processed, contradicting the claim that a worker
never exits while an item it could take is still pending. -/
theorem c3_worker_exit_with_pending_item :
    workerPool.submit (newWorkerPool 3) 7 SubmitBranch.requestChSend
      = some ({ requestCh := [7], requestChClosed := false, ctxCancelled := false,
                stopChClosed := false, size := 3 }, SubmitOutcome.enqueued)
    ∧ workerPool.cancelCtx
        { requestCh := [7], requestChClosed := false, ctxCancelled := false,
          stopChClosed := false, size := 3 }
      = { requestCh := [7], requestChClosed := false, ctxCancelled := true,
          stopChClosed := false, size := 3 }
    ∧ workerPool.workerReady
        { requestCh := [7], requestChClosed := false, ctxCancelled := true,
          stopChClosed := false, size := 3 } WorkerBranch.ctxDoneRecv = true
    ∧ workerPool.worker
        { requestCh := [7], requestChClosed := false, ctxCancelled := true,
          stopChClosed := false, size := 3 } WorkerBranch.ctxDoneRecv
      = some ({ requestCh := [7], requestChClosed := false, ctxCancelled := true,
                stopChClosed := false, size := 3 }, WorkerOutcome.exited)
    ∧ ({ requestCh := [7], requestChClosed := false, ctxCancelled := true,
         stopChClosed := false, size := 3 } : workerPool).requestCh ≠ [] := by
  decide

/-- Claim C8 (code bug), evaluated at the failing input: once the pool's
context is cancelled, `workerPool.start` closes `requestCh`; a `submit`
call still in flight (the handler only checks `shutdownCh`, which closes
at the very end of `Stop`) then has its send branch ready, and
committing the send on the closed channel is a runtime panic — `Submit`
neither enqueues nor returns any error, contradicting the claimed
three-way outcome. -/
theorem c8_submit_panics_on_closed_queue :
    workerPool.startCloseRequestCh (workerPool.cancelCtx (newWorkerPool 3))
      = { requestCh := [], requestChClosed := true, ctxCancelled := true,
          stopChClosed := false, size := 3 }
    ∧ workerPool.submitReady
        { requestCh := [], requestChClosed := true, ctxCancelled := true,
          stopChClosed := false, size := 3 } SubmitBranch.requestChSend = true
    ∧ workerPool.submit
        { requestCh := [], requestChClosed := true, ctxCancelled := true,
          stopChClosed := false, size := 3 } 9 SubmitBranch.requestChSend
      = some ({ requestCh := [], requestChClosed := true, ctxCancelled := true,
                stopChClosed := false, size := 3 }, SubmitOutcome.panicked) := by
  decide

/-- Claim C9 (code bug), evaluated at the failing input: when the
database connect fails, `Start` returns the wrapped startup error and
leaves `httpServer` nil; a subsequent `Stop` enters the shutdown body,
cancels the root context, and then calls `Shutdown` on the nil HTTP
server — a nil-pointer fault, not a safe nil return. -/
theorem c9_stop_after_failed_start_faults :
    (Server.Start { connectFails := true, connCloseFails := false } NewServer).2
      = some (Err.dbConnectWrap Err.dbConnectFailed)
    ∧ Server.Stop quietStopEnv
        (Server.Start { connectFails := true, connCloseFails := false } NewServer).1
      = StopResult.panicked [StopEvent.cancelRoot] := by
  decide

/-- The final server state of a completed `StopResult` (`d` on a fault). -/
def StopResult.finalServer (r : StopResult) (d : Server) : Server :=
  match r with
  | .panicked _ => d
  | .completed s _ _ => s

/-- Claim C1, counterexample: a first `Stop` call on a started server
whose goroutine wait times out returns the aggregate error
`shutdown timeout exceeded`; a second `Stop` call on the resulting state
skips the body (the `sync.Once` already fired) and returns its own local
`shutdownErr`, which was never assigned — `nil` — so the two calls do
not return the same aggregate error. -/
theorem c1_counterexample :
    (Server.Stop timeoutStopEnv startedServer).err = some Err.shutdownTimeout
    ∧ (Server.Stop timeoutStopEnv
        ((Server.Stop timeoutStopEnv startedServer).finalServer NewServer)).err = none := by
  decide

/-- Claim C1 as amended (proved): the shutdown protocol body executes at
most once — after any completed `Stop` call, every further `Stop` call
performs no shutdown action and returns `nil`, the never-assigned local
error of that later call, rather than the first call's aggregate
error. -/
theorem c1_amended (s s1 : Server) (env env2 : StopEnv) (evs : List StopEvent)
    (e : Option Err) (h : Server.Stop env s = StopResult.completed s1 evs e) :
    Server.Stop env2 s1 = StopResult.completed s1 [] none := by
  have hdone : s1.shutdownOnceDone = true := by
    by_cases hd : s.shutdownOnceDone = true
    · simp only [Server.Stop, hd, if_true] at h
      obtain ⟨h1, -, -⟩ := StopResult.completed.inj h
      rw [← h1]
      exact hd
    · simp only [Server.Stop, hd, if_false, Bool.not_eq_true] at h
      rcases hb : Server.stopOnceBody env s with evs' | ⟨s2, evs', e'⟩ <;> rw [hb] at h
      · exact absurd h (by simp)
      · obtain ⟨h1, -, -⟩ := StopResult.completed.inj h
        rw [← h1]
  simp [Server.Stop, hdone]

/-- The server state after the first (timed-out) `Stop` call on
`startedServer`: root cancelled, connection closed, shutdown channel
closed, `sync.Once` consumed. -/
def stoppedServer : Server :=
  { httpServerPresent := true, workerPoolPresent := true, cacheWarmerPresent := true,
    dbConn := some { conn := none }, rootCancelled := true, shutdownOnceDone := true,
    shutdownChClosed := true }

/-- Witness for C1's amended claim: after the concrete timed-out first
`Stop`, a second `Stop` returns `nil` and performs nothing. -/
theorem c1_witness :
    Server.Stop quietStopEnv stoppedServer
      = StopResult.completed stoppedServer [] none :=
  c1_amended startedServer stoppedServer timeoutStopEnv quietStopEnv
    [StopEvent.cancelRoot, .httpShutdown, .poolStop, .waitGoroutines, .dbClose,
      .closeShutdownCh]
    (some Err.shutdownTimeout) (by decide)

/-- Claim C2, counterexample: on a concrete started server the shutdown
body's very first action is cancelling the root context, and stopping
the ingress adapter (`httpServer.Shutdown`) comes only second — so the
Ingress Adapter is not stopped strictly before the root cancellation
signal is cancelled. -/
theorem c2_counterexample :
    (Server.Stop quietStopEnv startedServer).events
      = [StopEvent.cancelRoot, .httpShutdown, .poolStop, .waitGoroutines, .dbClose,
          .closeShutdownCh]
    ∧ ¬ ((Server.Stop quietStopEnv startedServer).events.indexOf StopEvent.httpShutdown
        < (Server.Stop quietStopEnv startedServer).events.indexOf StopEvent.cancelRoot) := by
  decide

/-- Claim C2 as amended (proved): on every started server (components
present, `sync.Once` unused) and in every environment, the shutdown
phases execute in the strict order: root cancellation first, then the
ingress stop, then the worker-pool drain wait, then the bounded wait for
remaining goroutines, then the Resource Handle close, then the shutdown
channel close — each phase's local action fully executes before the
next begins. -/
theorem c2_amended (s : Server) (env : StopEnv)
    (h1 : s.httpServerPresent = true) (h2 : s.workerPoolPresent = true)
    (h3 : s.dbConn.isSome = true) (h4 : s.shutdownOnceDone = false) :
    (Server.Stop env s).events
      = [StopEvent.cancelRoot, .httpShutdown, .poolStop, .waitGoroutines, .dbClose,
          .closeShutdownCh] := by
  obtain ⟨db, hdb⟩ := Option.isSome_iff_exists.mp h3
  simp [Server.Stop, Server.stopOnceBody, h1, h2, h4, hdb, StopResult.events]

/-- Witness for C2's amended claim at the concrete started server. -/
theorem c2_witness :
    (Server.Stop timeoutStopEnv startedServer).events
      = [StopEvent.cancelRoot, .httpShutdown, .poolStop, .waitGoroutines, .dbClose,
          .closeShutdownCh] :=
  c2_amended startedServer timeoutStopEnv (by decide) (by decide) (by decide) (by decide)

/-- Claim C6 (confirmed): on every started server and in every
environment, the shutdown body closes the Resource Handle (the
`dbClose` step runs) regardless of the bounded wait's outcome; when the
goroutine wait times out the returned aggregate error is non-nil, and
when no earlier step failed it is exactly `shutdown timeout exceeded` —
the timeout is reported, not a reason to abort. -/
theorem c6_resource_closed_despite_timeout (s : Server) (env : StopEnv)
    (h1 : s.httpServerPresent = true) (h2 : s.workerPoolPresent = true)
    (h3 : s.dbConn.isSome = true) (h4 : s.shutdownOnceDone = false) :
    StopEvent.dbClose ∈ (Server.Stop env s).events
    ∧ (env.wgWaitCompletes = false → (Server.Stop env s).err ≠ none)
    ∧ (env.wgWaitCompletes = false → env.httpShutdownErr = none →
        env.poolWaitCompletes = true →
        (Server.Stop env s).err = some Err.shutdownTimeout) := by
  obtain ⟨db, hdb⟩ := Option.isSome_iff_exists.mp h3
  rcases env with ⟨he, hp, hw⟩
  refine ⟨?_, ?_, ?_⟩
  · simp [Server.Stop, Server.stopOnceBody, h1, h2, h4, hdb, StopResult.events]
  · intro hwf
    subst hwf
    cases he <;> cases hp <;>
      simp [Server.Stop, Server.stopOnceBody, h1, h2, h4, hdb, StopResult.err]
  · intro hwf hef hpf
    subst hwf
    subst hef
    subst hpf
    simp [Server.Stop, Server.stopOnceBody, h1, h2, h4, hdb, StopResult.err]

/-- Witness for C6 at the concrete started server with the goroutine
wait timing out: the Resource Handle close step still runs and the
returned error is the shutdown timeout. -/
theorem c6_witness :
    StopEvent.dbClose ∈ (Server.Stop timeoutStopEnv startedServer).events
    ∧ (Server.Stop timeoutStopEnv startedServer).err = some Err.shutdownTimeout :=
  ⟨(c6_resource_closed_despite_timeout startedServer timeoutStopEnv
      (by decide) (by decide) (by decide) (by decide)).1,
   (c6_resource_closed_despite_timeout startedServer timeoutStopEnv
      (by decide) (by decide) (by decide) (by decide)).2.2 rfl rfl rfl⟩

/-- Claim C7, counterexample: a first `Start` on a fresh server
succeeds, and a second `Start` on the resulting state also returns no
error — the source has no started-already guard, so calling `Start`
twice is not an error; it simply runs the whole startup again. -/
theorem c7_counterexample :
    (Server.Start startEnvOK NewServer).2 = none
    ∧ (Server.Start startEnvOK (Server.Start startEnvOK NewServer).1).2 = none := by
  decide

/-- Claim C7 as amended (proved): `Start` returns an error only when the
database connect fails; in particular on any state — including one
already started — a `Start` whose connect succeeds returns `nil` and
(re)starts the components, with no double-start rejection. -/
theorem c7_amended (s : Server) (env : StartEnv) (h : env.connectFails = false) :
    (Server.Start env s).2 = none
    ∧ (Server.Start env s).1.httpServerPresent = true
    ∧ (Server.Start env s).1.workerPoolPresent = true
    ∧ (Server.Start env s).1.cacheWarmerPresent = true := by
  simp [Server.Start, dbConnection.connect, h, newDBConnection]

/-- Witness for C7's amended claim: the second `Start` call on the
already-started server returns no error. -/
theorem c7_witness :
    (Server.Start startEnvOK startedServer).2 = none
    ∧ (Server.Start startEnvOK startedServer).1.httpServerPresent = true :=
  ⟨(c7_amended startedServer startEnvOK rfl).1, (c7_amended startedServer startEnvOK rfl).2.1⟩

end GoKata
